import Mathlib

/-!
Verification of the three-stage job pipeline (preprocess, generation,
postprocess) of the api-wrapper service.  The definitions below are a
shallow embedding of the Python sources under
src/build/COPY_ROOT_1/opt/ai-dock/api-wrapper: workers/preprocess_worker.py,
workers/generation_worker.py, workers/postprocess_worker.py,
requestmodels/models.py, modifiers/basemodifier.py and main.py.
External collaborators (the generation backend, file system, object
storage, notifier) are modelled as explicit environment parameters, as the
specification treats them as boundary interfaces.  Machine time values are
modelled as rationals; Python dictionaries as association lists; fallible
code returns Except.
-/

/-- Result.status values, from the data model in main.py and the workers.
Terminal set is completed, failed, timeout, cancelled. -/
inductive Status where
  | queued
  | processing
  | generating
  | generated
  | completed
  | failed
  | timeout
  | cancelled
deriving DecidableEq, Repr

/-- Artifact descriptor appended to Result.output by the postprocess stage
(return value of PostprocessWorker._process_output_file). -/
structure OutputItem where
  filename : String := ""
  local_path : String := ""
  type : String := ""
  subfolder : String := ""
  node_id : String := ""
  output_type : String := ""
  url : Option String := none
  upload_error : Option String := none
deriving DecidableEq, Repr

/-- Observable request status record (responses.result.Result as used by
the workers: fields id, status, message, comfyui_response, output).  The
backend history payload is opaque to the pipeline, so it is modelled as a
string; none models both an absent attribute and a Python-falsy payload. -/
structure Result where
  id : String := ""
  status : Status := Status.queued
  message : String := ""
  comfyui_response : Option String := none
  output : List OutputItem := []
deriving DecidableEq, Repr

/-- S3 override carried by a request (requestmodels/models.py, S3Config). -/
structure S3Config where
  access_key_id : String := ""
  secret_access_key : String := ""
  endpoint_url : String := ""
  bucket_name : String := ""
  region : String := ""
deriving DecidableEq, Repr

/-- Webhook override carried by a request (requestmodels/models.py, WebHook). -/
structure WebHook where
  url : String := ""
  extra_params : List (String × String) := []
  timeout : Nat := 30
deriving DecidableEq, Repr

/-- Input model (requestmodels/models.py, class Input).  Python dict values
are opaque to the validation logic, so workflow_json and modifications are
association lists over opaque string values; Python truthiness of a dict is
non-emptiness and of a string is being non-empty. -/
structure Input where
  request_id : String := ""
  modifier : String := ""
  modifications : List (String × String) := []
  workflow_json : List (String × String) := []
  s3 : Option S3Config := none
  webhook : Option WebHook := none
deriving DecidableEq, Repr

/-- Work order stored in the request store (requestmodels/models.py,
class Payload: a single field input). -/
structure Request where
  input : Input
deriving DecidableEq, Repr

/-- Python truthiness of a string. -/
def truthyStr (s : String) : Bool := s != ""

/-- Python truthiness of a dict modelled as an association list. -/
def truthyDict (d : List (String × String)) : Bool := !d.isEmpty

/-- Input.validate_workflow_mode (requestmodels/models.py lines 86-105):
raises when both workflow_json and modifier are given, when neither is
given, and when modifications are given without modifier; otherwise the
input is accepted unchanged. -/
def validate_workflow_mode (i : Input) : Except String Input :=
  if truthyDict i.workflow_json && truthyStr i.modifier then
    Except.error "Cannot provide both workflow_json and modifier - they are mutually exclusive"
  else if !truthyDict i.workflow_json && !truthyStr i.modifier then
    Except.error "Must provide either workflow_json OR modifier"
  else if truthyDict i.modifications && !truthyStr i.modifier then
    Except.error "modifications can only be provided when modifier is specified"
  else
    Except.ok i

/-- BaseModifier.modify_workflow_value (modifiers/basemodifier.py lines
43-52): a key absent from the modifications with no default raises a
missing-parameter error; a key absent with a default returns the default;
a present key returns the supplied value.  The Python membership test
corresponds to association-list lookup, and a default of None (meaning no
default supplied) corresponds to none. -/
def modify_workflow_value (modifications : List (String × String))
    (key : String) (defaultVal : Option String) : Except String String :=
  match modifications.lookup key, defaultVal with
  | none, none => Except.error (key ++ " required but not set")
  | none, some d => Except.ok d
  | some v, _ => Except.ok v

/-- Snapshot returned by the queue position query (main.py,
_get_queue_position). -/
structure PositionInfo where
  current_queue : Option String
  position : Nat
  queue_size : Nat
  estimated_wait_time : Option Nat
deriving DecidableEq, Repr

/-- The function _get_queue_position (main.py lines 560-623): scan the three
stage queues in order; for the first queue containing the id report its
name, the 1-based index, the queue length and a per-stage wait estimate;
when the id is in none of the queues report the processing placeholder. -/
def get_queue_position (preprocess_items generation_items postprocess_items : List String)
    (request_id : String) : PositionInfo :=
  match preprocess_items.findIdx? (· == request_id) with
  | some idx =>
      { current_queue := some "preprocessing", position := idx + 1,
        queue_size := preprocess_items.length,
        estimated_wait_time := some ((idx + 1) * 30) }
  | none =>
    match generation_items.findIdx? (· == request_id) with
    | some idx =>
        { current_queue := some "generation", position := idx + 1,
          queue_size := generation_items.length,
          estimated_wait_time := some ((idx + 1) * 120) }
    | none =>
      match postprocess_items.findIdx? (· == request_id) with
      | some idx =>
          { current_queue := some "postprocessing", position := idx + 1,
            queue_size := postprocess_items.length,
            estimated_wait_time := some ((idx + 1) * 20) }
      | none =>
          { current_queue := some "processing", position := 0,
            queue_size := 0, estimated_wait_time := some 0 }

/-- Key-value store interface (Store.get as function application). -/
def Store (α : Type) : Type := String → Option α

/-- Store.set: point update of a key-value store. -/
def Store.set {α : Type} (s : Store α) (k : String) (v : α) : Store α :=
  fun q => if q = k then some v else s q

/-- Shared mutable context of one worker: the two stores and the three
stage queues (workers/*.py constructor kwargs).  Queues are FIFO lists of
request ids; put appends at the back. -/
structure WorkerState where
  request_store : Store Request
  response_store : Store Result
  preprocess_queue : List String
  generation_queue : List String
  postprocess_queue : List String

/-- Observable side effects of one iteration of a per-item worker loop:
how many times task_done ran on the own queue, whether an exception escaped
the iteration and with what message. -/
structure StepTrace where
  taskDone : Nat
  escaped : Option String
deriving DecidableEq, Repr

/-- Outcome of the collaborator calls of the preprocess try-body for one
item (modifier resolution, workflow load, modification application and URL
materialisation, basemodifier.py): either the rewritten workflow or an
exception message. -/
inductive ModifierOutcome where
  | ok (newWorkflow : List (String × String))
  | raises (msg : String)
deriving DecidableEq, Repr

/-- The except-handler of PreprocessWorker.work (preprocess_worker.py lines
72-87): re-read the result, mark it failed with the error text when
present, and forward the id to the postprocess queue; the finally clause
then runs task_done once. -/
def preprocessFailHandler (st : WorkerState) (request_id msg : String) :
    WorkerState × StepTrace :=
  let st1 :=
    match st.response_store request_id with
    | some r =>
        let r1 := { r with status := Status.failed,
                           message := "Preprocessing failed: " ++ msg }
        { st with response_store := st.response_store.set request_id r1 }
    | none => st
  ({ st1 with postprocess_queue := st1.postprocess_queue ++ [request_id] },
   { taskDone := 1, escaped := none })

/-- One iteration of PreprocessWorker.work for a real request id
(preprocess_worker.py lines 33-91).  Absent request or result raises into
the except handler; an already cancelled result skips to the postprocess
queue, running task_done both inline and in the finally clause; otherwise
the modifier collaborator either yields the rewritten workflow (persisted,
result advanced to processing, id sent to the generation queue) or raises
into the except handler. -/
def preprocessStep (st : WorkerState) (request_id : String)
    (env : ModifierOutcome) : WorkerState × StepTrace :=
  match st.request_store request_id with
  | none =>
      preprocessFailHandler st request_id
        ("Request " ++ request_id ++ " not found in store")
  | some request =>
    match st.response_store request_id with
    | none =>
        preprocessFailHandler st request_id
          ("Result " ++ request_id ++ " not found in store")
    | some result =>
      if result.status = Status.cancelled then
        ({ st with postprocess_queue := st.postprocess_queue ++ [request_id] },
         { taskDone := 2, escaped := none })
      else
        match env with
        | ModifierOutcome.raises msg => preprocessFailHandler st request_id msg
        | ModifierOutcome.ok newWorkflow =>
            let request1 :=
              { request with input := { request.input with workflow_json := newWorkflow } }
            let st1 := { st with request_store := st.request_store.set request_id request1 }
            let result1 :=
              { result with status := Status.processing,
                            message := "Preprocessing complete. Queued for generation." }
            let st2 := { st1 with response_store := st1.response_store.set request_id result1 }
            ({ st2 with generation_queue := st2.generation_queue ++ [request_id] },
             { taskDone := 1, escaped := none })

/-- Observable side effects of one generation worker iteration; submitted
records whether post_workflow (the backend job-submission endpoint) was
invoked. -/
structure GenTrace where
  taskDone : Nat
  escaped : Option String
  submitted : Bool
deriving DecidableEq, Repr

/-- Outcome of the backend interaction of the generation try-body for one
item: post_workflow raises; or it returns a job id and the monitoring plus
history fetch raises; or everything succeeds with a history payload. -/
inductive GenEnv where
  | submitRaises (msg : String)
  | monitorRaises (jobId msg : String)
  | succeeds (jobId payload : String)
deriving DecidableEq, Repr

/-- The except-handler of GenerationWorker.work (generation_worker.py lines
109-124): re-read the result, mark it failed with the error text when
present, forward the id to the postprocess queue; the finally clause then
runs task_done once. -/
def generationFailHandler (st : WorkerState) (request_id msg : String)
    (submitted : Bool) : WorkerState × GenTrace :=
  let st1 :=
    match st.response_store request_id with
    | some r =>
        let r1 := { r with status := Status.failed,
                           message := "Generation failed: " ++ msg }
        { st with response_store := st.response_store.set request_id r1 }
    | none => st
  ({ st1 with postprocess_queue := st1.postprocess_queue ++ [request_id] },
   { taskDone := 1, escaped := none, submitted := submitted })

/-- One iteration of GenerationWorker.work for a real request id
(generation_worker.py lines 43-128).  Absent request or result raises into
the except handler before any submission; an already cancelled result
skips straight to the postprocess queue without calling post_workflow,
running task_done inline and again in the finally clause; otherwise
post_workflow is invoked, the result advances to generating, and the
monitoring plus history fetch either raises into the except handler or
yields the payload, after which the result advances to generated and the
id is forwarded to the postprocess queue. -/
def generationStep (st : WorkerState) (request_id : String)
    (env : GenEnv) : WorkerState × GenTrace :=
  match st.request_store request_id with
  | none =>
      generationFailHandler st request_id
        ("Request " ++ request_id ++ " not found in store") false
  | some _request =>
    match st.response_store request_id with
    | none =>
        generationFailHandler st request_id
          ("Result " ++ request_id ++ " not found in store") false
    | some result =>
      if result.status = Status.cancelled then
        ({ st with postprocess_queue := st.postprocess_queue ++ [request_id] },
         { taskDone := 2, escaped := none, submitted := false })
      else
        match env with
        | GenEnv.submitRaises msg => generationFailHandler st request_id msg true
        | GenEnv.monitorRaises jobId msg =>
            let result1 :=
              { result with status := Status.generating,
                            message := "Generation started (ComfyUI job: " ++ jobId ++ ")" }
            let st1 := { st with response_store := st.response_store.set request_id result1 }
            generationFailHandler st1 request_id msg true
        | GenEnv.succeeds jobId payload =>
            let result1 :=
              { result with status := Status.generating,
                            message := "Generation started (ComfyUI job: " ++ jobId ++ ")" }
            let st1 := { st with response_store := st.response_store.set request_id result1 }
            let result2 :=
              { result1 with status := Status.generated,
                             message := "Generation complete. Queued for post-processing.",
                             comfyui_response := some payload }
            let st2 := { st1 with response_store := st1.response_store.set request_id result2 }
            ({ st2 with postprocess_queue := st2.postprocess_queue ++ [request_id] },
             { taskDone := 1, escaped := none, submitted := true })

/-- Observable side effects of one postprocess worker iteration;
webhookAttempted records whether send_webhook was invoked from the finally
clause (send_webhook itself swallows every exception). -/
structure PostTrace where
  taskDone : Nat
  escaped : Option String
  webhookAttempted : Bool
deriving DecidableEq, Repr

/-- Outcomes of the external collaborators of the postprocess try-body for
one item: move_assets (file system) either raises or yields the artifact
list written to Result.output; get_s3_config resolves to a configured
destination or not; upload_assets either raises or yields the artifact
list with urls and per-file upload errors attached; get_webhook_config
resolves to a configured destination or not. -/
structure PostEnv where
  moveAssets : Except String (List OutputItem)
  s3Configured : Bool
  uploadAssets : Except String (List OutputItem)
  webhookConfigured : Bool
deriving Repr

/-- Final status update of the postprocess try-body (postprocess_worker.py
lines 76-82): set completed unless the result is already failed. -/
def postFinalStatus (r : Result) : Result :=
  if r.status ≠ Status.failed then
    { r with status := Status.completed, message := "Processing complete." }
  else r

/-- Try-body of PostprocessWorker.work after both lookups succeed
(postprocess_worker.py lines 57-83): only when the result carries a truthy
backend payload run move_assets and, when an S3 destination is configured,
upload_assets (either may raise); then apply the final status update. -/
def postTryBody (result : Result) (env : PostEnv) : Except String Result :=
  match result.comfyui_response with
  | some _ =>
      match env.moveAssets with
      | Except.error msg => Except.error msg
      | Except.ok moved =>
          let result1 := { result with output := moved }
          if env.s3Configured then
            match env.uploadAssets with
            | Except.error msg => Except.error msg
            | Except.ok uploaded => Except.ok (postFinalStatus { result1 with output := uploaded })
          else
            Except.ok (postFinalStatus result1)
  | none => Except.ok (postFinalStatus result)

/-- Finally clause of PostprocessWorker.work (postprocess_worker.py lines
100-112).  It first evaluates request.input to resolve the webhook
configuration: when the request was absent from the store the local
variable request is None, so this raises an attribute error that escapes
the loop iteration before task_done ever runs; otherwise the webhook is
attempted whenever a configuration resolves, and task_done runs once. -/
def postFinally (request : Option Request) (env : PostEnv) : PostTrace :=
  match request with
  | none =>
      { taskDone := 0, webhookAttempted := false,
        escaped := some "AttributeError: NoneType object has no attribute input" }
  | some _ =>
      { taskDone := 1, webhookAttempted := env.webhookConfigured, escaped := none }

/-- One iteration of PostprocessWorker.work for a real request id
(postprocess_worker.py lines 47-112).  An absent request or result raises
into the except handler (postprocess_worker.py lines 86-98), which marks
the stored result failed when present; the finally clause then runs with
whatever the local request variable holds. -/
def postprocessStep (st : WorkerState) (request_id : String)
    (env : PostEnv) : WorkerState × PostTrace :=
  match st.request_store request_id with
  | none =>
      let st1 :=
        match st.response_store request_id with
        | some r =>
            let r1 := { r with status := Status.failed,
                               message := "Post-processing failed: Request " ++ request_id
                                 ++ " not found in store" }
            { st with response_store := st.response_store.set request_id r1 }
        | none => st
      (st1, postFinally none env)
  | some request =>
    match st.response_store request_id with
    | none => (st, postFinally (some request) env)
    | some result =>
      match postTryBody result env with
      | Except.ok result1 =>
          ({ st with response_store := st.response_store.set request_id result1 },
           postFinally (some request) env)
      | Except.error msg =>
          let r1 := { result with status := Status.failed,
                                  message := "Post-processing failed: " ++ msg }
          ({ st with response_store := st.response_store.set request_id r1 },
           postFinally (some request) env)

/-- Cancellation-check schedule of the WebSocket monitoring loop
(generation_worker.py lines 244-265).  The loop blocks on the next
inbound message; only after a message arrives, at its arrival time t, does
it compare t against the time of the last cancellation check, and only
when more than 5 seconds have passed does it query the response store.
When the store reports cancelled it requests backend interruption and
aborts with a cancellation error (no further messages are processed);
otherwise the last-check time advances to t.  Given the store predicate,
the initial last-check time (the monitoring start time) and the arrival
times of the received messages, this returns the times at which the store
was queried together with the abort time, when any. -/
def monitorChecks (cancelled : ℚ → Bool) : ℚ → List ℚ → List ℚ × Option ℚ
  | _, [] => ([], none)
  | lastCheck, t :: ts =>
    if t - lastCheck > 5 then
      if cancelled t then
        ([t], some t)
      else
        let rest := monitorChecks cancelled t ts
        (t :: rest.1, rest.2)
    else
      monitorChecks cancelled lastCheck ts

/-- A progress event received over the WebSocket: arrival time and the
value and max fields of its data. -/
structure ProgressEvent where
  time : ℚ
  value : ℚ
  maxValue : ℚ
deriving DecidableEq, Repr

/-- Percentage computed for a progress event (generation_worker.py line
309): value divided by max times 100 when max is positive, 0 otherwise;
division is never evaluated on a non-positive max. -/
def progressPct (value maxValue : ℚ) : ℚ :=
  if maxValue > 0 then value / maxValue * 100 else 0

/-- Store-write throttle of the progress branch (generation_worker.py
lines 320-324): a progress message is written to the response store only
when more than 2 seconds have passed since the previous progress store
write (initially since monitoring start), and the throttle clock then
advances to the event time.  Returns the times of the store writes among
the given progress events. -/
def progressWrites : ℚ → List ProgressEvent → List ℚ
  | _, [] => []
  | lastUpdate, e :: es =>
    if e.time - lastUpdate > 2 then
      e.time :: progressWrites e.time es
    else
      progressWrites lastUpdate es

/-- Helper: an id that is not a member of a queue is not found by the
first-index scan. -/
theorem findIdxQ_eq_none_of_not_mem (l : List String) (rid : String)
    (h : rid ∉ l) : l.findIdx? (· == rid) = none := by
  rw [List.findIdx?_eq_none_iff]
  intro x hx
  rw [beq_eq_false_iff_ne]
  intro hxr
  exact h (hxr ▸ hx)

/-- C6: ingress validation accepts an input exactly when exactly one of
the modifier name and a non-empty workflow_json is provided and any
modifications come together with a modifier; providing both, providing
neither, or providing modifications without a modifier is rejected with a
validation error, so the pipeline is never invoked for such inputs. -/
theorem validate_workflow_mode_accepts_iff (i : Input) :
    validate_workflow_mode i = Except.ok i ↔
      (truthyStr i.modifier = !truthyDict i.workflow_json ∧
        (truthyDict i.modifications = true → truthyStr i.modifier = true)) := by
  unfold validate_workflow_mode
  cases hm : truthyStr i.modifier <;> cases hw : truthyDict i.workflow_json <;>
    cases hmo : truthyDict i.modifications <;> simp [hm, hw, hmo]

/-- Witness for the C6 theorem at a concrete accepted input. -/
theorem validate_workflow_mode_accepts_iff_witness :
    validate_workflow_mode { modifier := "Image2Image" } =
      Except.ok { modifier := "Image2Image" } :=
  (validate_workflow_mode_accepts_iff { modifier := "Image2Image" }).mpr (by decide)

/-- C8: modify_workflow_value returns the caller-supplied value whenever
the key is present in the modifications, returns the built-in default when
the key is absent and a default is provided, and raises a
missing-parameter error exactly when the key is absent and no default is
provided. -/
theorem modify_workflow_value_spec (modifications : List (String × String))
    (key : String) (defaultVal : Option String) :
    (∀ v, modifications.lookup key = some v →
        modify_workflow_value modifications key defaultVal = Except.ok v) ∧
    (∀ d, modifications.lookup key = none → defaultVal = some d →
        modify_workflow_value modifications key defaultVal = Except.ok d) ∧
    ((∃ e, modify_workflow_value modifications key defaultVal = Except.error e) ↔
        (modifications.lookup key = none ∧ defaultVal = none)) := by
  unfold modify_workflow_value
  cases h : modifications.lookup key <;> cases hd : defaultVal <;> simp [h, hd]

/-- Witness for the C8 theorem: a present key returns the supplied value. -/
theorem modify_workflow_value_spec_witness :
    modify_workflow_value [("prompt", "a cat")] "prompt" none = Except.ok "a cat" :=
  (modify_workflow_value_spec [("prompt", "a cat")] "prompt" none).1 "a cat" (by decide)

/-- C7: for a request id present at 0-based first index i in exactly one
of the three stage queues of current size n, the queue position query
returns that queue, position i plus 1, queue_size n and the per-stage wait
estimate. -/
theorem get_queue_position_found (pre gen post : List String)
    (rid : String) (i : Nat) :
    (pre.findIdx? (· == rid) = some i →
        get_queue_position pre gen post rid =
          { current_queue := some "preprocessing", position := i + 1,
            queue_size := pre.length, estimated_wait_time := some ((i + 1) * 30) }) ∧
    (rid ∉ pre → gen.findIdx? (· == rid) = some i →
        get_queue_position pre gen post rid =
          { current_queue := some "generation", position := i + 1,
            queue_size := gen.length, estimated_wait_time := some ((i + 1) * 120) }) ∧
    (rid ∉ pre → rid ∉ gen → post.findIdx? (· == rid) = some i →
        get_queue_position pre gen post rid =
          { current_queue := some "postprocessing", position := i + 1,
            queue_size := post.length, estimated_wait_time := some ((i + 1) * 20) }) := by
  refine ⟨fun h1 => ?_, fun h0 h1 => ?_, fun h0 h0g h1 => ?_⟩
  · simp [get_queue_position, h1]
  · simp [get_queue_position, findIdxQ_eq_none_of_not_mem pre rid h0, h1]
  · simp [get_queue_position, findIdxQ_eq_none_of_not_mem pre rid h0,
      findIdxQ_eq_none_of_not_mem gen rid h0g, h1]

/-- Witness for the C7 theorem: the id b sits at 0-based index 1 of the
generation queue of size 3 and in no other queue. -/
theorem get_queue_position_found_witness :
    get_queue_position ["x"] ["a", "b", "c"] ["y"] "b" =
      { current_queue := some "generation", position := 2,
        queue_size := 3, estimated_wait_time := some 240 } :=
  (get_queue_position_found ["x"] ["a", "b", "c"] ["y"] "b" 1).2.1
    (by decide) (by decide)

/-- C10: for a request id present in none of the three stage queues the
queue position query reports the processing placeholder: current_queue
processing, position 0, queue_size 0 and estimated wait 0, rather than an
error or an absent entry. -/
theorem get_queue_position_not_found (pre gen post : List String)
    (rid : String) (h0 : rid ∉ pre) (h1 : rid ∉ gen) (h2 : rid ∉ post) :
    get_queue_position pre gen post rid =
      { current_queue := some "processing", position := 0,
        queue_size := 0, estimated_wait_time := some 0 } := by
  simp [get_queue_position, findIdxQ_eq_none_of_not_mem pre rid h0,
    findIdxQ_eq_none_of_not_mem gen rid h1,
    findIdxQ_eq_none_of_not_mem post rid h2]

/-- Witness for the C10 theorem at concrete queues. -/
theorem get_queue_position_not_found_witness :
    get_queue_position ["a"] ["b"] ["c"] "z" =
      { current_queue := some "processing", position := 0,
        queue_size := 0, estimated_wait_time := some 0 } :=
  get_queue_position_not_found ["a"] ["b"] ["c"] "z"
    (by decide) (by decide) (by decide)

/-- Helper: successive progress store writes are always more than 2
seconds apart, starting from the initial throttle clock. -/
theorem progressWrites_chain (lastUpdate : ℚ) (events : List ProgressEvent) :
    List.Chain (fun a b => b - a > 2) lastUpdate (progressWrites lastUpdate events) := by
  induction events generalizing lastUpdate with
  | nil => simp [progressWrites]
  | cons e es ih =>
    by_cases h : e.time - lastUpdate > 2
    · simp only [progressWrites, if_pos h]
      exact List.Chain.cons h (ih e.time)
    · simp only [progressWrites, if_neg h]
      exact ih lastUpdate

/-- C9: the percentage computed for a progress event equals value divided
by max times 100 whenever max is positive and equals 0 whenever max is not
positive (a max of 0 yields 0 percent and the division is never evaluated,
so no division error can occur), and the progress store writes are
throttled: each write, including the first, comes more than 2 seconds
after the previous write time (initially the monitoring start), so at most
one store write occurs in any 2-second interval. -/
theorem progress_event_handling (value maxValue lastUpdate : ℚ)
    (events : List ProgressEvent) :
    (0 < maxValue → progressPct value maxValue = value / maxValue * 100) ∧
    (maxValue ≤ 0 → progressPct value maxValue = 0) ∧
    List.Chain (fun a b => b - a > 2) lastUpdate (progressWrites lastUpdate events) := by
  refine ⟨fun h => ?_, fun h => ?_, progressWrites_chain lastUpdate events⟩
  · simp [progressPct, h]
  · simp [progressPct, not_lt.mpr h]

/-- Witness for the C9 theorem: a progress event with max 0 yields 0
percent. -/
theorem progress_event_handling_witness : progressPct 50 0 = 0 :=
  (progress_event_handling 50 0 0 []).2.1 (by norm_num)

/-- Response-store predicate of a run in which the result transitions to
cancelled at time 6 of monitoring. -/
def cancelledFromSix : ℚ → Bool := fun t => decide (6 ≤ t)

/-- Helper: every cancellation-check time of the monitoring loop is the
arrival time of a received message. -/
theorem monitorChecks_subset (cancelled : ℚ → Bool) (lastCheck : ℚ)
    (ts : List ℚ) :
    ∀ t ∈ (monitorChecks cancelled lastCheck ts).1, t ∈ ts := by
  induction ts generalizing lastCheck with
  | nil => simp [monitorChecks]
  | cons t0 ts ih =>
    intro t ht
    by_cases h : t0 - lastCheck > 5
    · by_cases hc : cancelled t0
      · simp [monitorChecks, h, hc] at ht
        simp [ht]
      · simp [monitorChecks, h, hc] at ht
        rcases ht with ht | ht
        · simp [ht]
        · exact List.mem_cons_of_mem t0 (ih t0 t ht)
    · simp [monitorChecks, h] at ht
      exact List.mem_cons_of_mem t0 (ih lastCheck t ht)

/-- Helper: successive cancellation checks are always more than 5 seconds
apart, starting from the monitoring start time. -/
theorem monitorChecks_chain (cancelled : ℚ → Bool) (lastCheck : ℚ)
    (ts : List ℚ) :
    List.Chain (fun a b => b - a > 5) lastCheck (monitorChecks cancelled lastCheck ts).1 := by
  induction ts generalizing lastCheck with
  | nil => simp [monitorChecks]
  | cons t0 ts ih =>
    by_cases h : t0 - lastCheck > 5
    · by_cases hc : cancelled t0
      · simp [monitorChecks, h, hc]
      · simp only [monitorChecks, if_pos h, if_neg hc]
        exact List.Chain.cons h (ih t0)
    · simp only [monitorChecks, if_neg h]
      exact ih lastCheck

/-- Helper: when the monitoring loop aborts, it does so at a message
arrival time at which the response store reported cancelled. -/
theorem monitorChecks_abort (cancelled : ℚ → Bool) (lastCheck : ℚ)
    (ts : List ℚ) :
    ∀ t, (monitorChecks cancelled lastCheck ts).2 = some t → cancelled t = true := by
  induction ts generalizing lastCheck with
  | nil => simp [monitorChecks]
  | cons t0 ts ih =>
    intro t ht
    by_cases h : t0 - lastCheck > 5
    · by_cases hc : cancelled t0
      · simp [monitorChecks, h, hc] at ht
        exact ht ▸ hc
      · simp [monitorChecks, h, hc] at ht
        exact ih t0 t ht
    · simp [monitorChecks, h] at ht
      exact ih lastCheck t ht

/-- C4 counterexample: in a monitoring run started at time 0 with messages
arriving at times 1 and 60 (both within the receive-timeout windows of the
loop) and a result that transitions to cancelled at time 6, the loop
queries the response store and requests backend interruption only at time
60 - 54 seconds after the cancellation and 59 seconds after the previous
message - because the check is gated on message arrival.  This refutes the
claim that the store is re-checked at least once every 5 or so seconds of
monitoring time regardless of whether messages are arriving. -/
theorem monitor_cancellation_claim_refuted :
    monitorChecks cancelledFromSix 0 [1, 60] = ([60], some 60) ∧
      (60 : ℚ) - 6 > 5 := by
  have h1 : ¬ ((1 : ℚ) - 0 > 5) := by norm_num
  have h2 : (5 : ℚ) < 60 := by norm_num
  have h3 : cancelledFromSix 60 = true := by norm_num [cancelledFromSix]
  constructor
  · simp [monitorChecks, h1, h2, h3]
  · norm_num

/-- C4 as amended: during WebSocket monitoring the cancellation re-check
happens only upon receiving a message, never while blocked waiting: every
check time is the arrival time of a received message, successive checks
are more than 5 seconds apart (5 seconds is a minimum spacing between
checks, not a guaranteed maximum), an abort only happens at a check whose
store read reported cancelled (backend interruption is requested at that
moment and monitoring stops with a cancellation error), and conversely a
message arriving more than 5 seconds after the last check while the result
is cancelled makes the loop check, interrupt and abort at once. -/
theorem monitor_cancellation_amended (cancelled : ℚ → Bool) (lastCheck : ℚ)
    (ts : List ℚ) :
    (∀ t ∈ (monitorChecks cancelled lastCheck ts).1, t ∈ ts) ∧
    List.Chain (fun a b => b - a > 5) lastCheck (monitorChecks cancelled lastCheck ts).1 ∧
    (∀ t, (monitorChecks cancelled lastCheck ts).2 = some t → cancelled t = true) ∧
    (∀ t rest, t - lastCheck > 5 → cancelled t = true →
        monitorChecks cancelled lastCheck (t :: rest) = ([t], some t)) := by
  refine ⟨monitorChecks_subset cancelled lastCheck ts,
    monitorChecks_chain cancelled lastCheck ts,
    monitorChecks_abort cancelled lastCheck ts, ?_⟩
  intro t rest h hc
  simp [monitorChecks, h, hc]

/-- Witness for the amended C4 theorem: a message at time 7 of a run
cancelled from time 6 triggers the check, the interrupt and the abort. -/
theorem monitor_cancellation_amended_witness :
    monitorChecks cancelledFromSix 0 [7] = ([7], some 7) :=
  (monitor_cancellation_amended cancelledFromSix 0 [7]).2.2.2 7 []
    (by norm_num) (by norm_num [cancelledFromSix])

/-- C3: a request whose result is already cancelled when the generation
worker claims it never reaches post_workflow (the backend job-submission
endpoint) and is still forwarded to the postprocess queue; and at the
postprocess stage, whenever the request is present in the store and a
webhook destination is configured, the guaranteed finalization step
attempts the webhook notification no matter how processing went. -/
theorem cancelled_skips_generation_submit (st : WorkerState)
    (request_id : String) (req : Request) (res : Result) (genv : GenEnv)
    (penv : PostEnv)
    (hreq : st.request_store request_id = some req)
    (hres : st.response_store request_id = some res)
    (hcan : res.status = Status.cancelled) :
    (generationStep st request_id genv).2.submitted = false ∧
    (generationStep st request_id genv).1.postprocess_queue =
      st.postprocess_queue ++ [request_id] ∧
    (∀ st2 : WorkerState, st2.request_store request_id = some req →
        penv.webhookConfigured = true →
        (postprocessStep st2 request_id penv).2.webhookAttempted = true) := by
  refine ⟨?_, ?_, ?_⟩
  · simp [generationStep, hreq, hres, hcan]
  · simp [generationStep, hreq, hres, hcan]
  · intro st2 h2 hw
    simp only [postprocessStep, h2]
    cases hres2 : st2.response_store request_id with
    | none => simp [postFinally, hw]
    | some r =>
        cases htry : postTryBody r penv <;> simp [postFinally, hw, htry]

/-- Witness for the C3 theorem at a concrete cancelled request. -/
theorem cancelled_skips_generation_submit_witness :
    (generationStep
        { request_store := fun k => if k = "rc" then some { input := {} } else none,
          response_store := fun k =>
            if k = "rc" then some { id := "rc", status := Status.cancelled } else none,
          preprocess_queue := [], generation_queue := [], postprocess_queue := [] }
        "rc" (GenEnv.succeeds "j" "p")).2.submitted = false :=
  (cancelled_skips_generation_submit _ "rc" { input := {} }
      { id := "rc", status := Status.cancelled }
      (GenEnv.succeeds "j" "p")
      { moveAssets := Except.ok [], s3Configured := false,
        uploadAssets := Except.ok [], webhookConfigured := true }
      (by simp) (by simp) rfl).1

/-- C5: when the preprocess try-body raises, and when the generation
try-body raises either at submission or during monitoring, the stored
result (when present and not on the cancelled skip path) is set to failed
with a stage-tagged message containing the error text, and the request id
is still forwarded to the postprocess queue rather than dropped. -/
theorem stage_failure_marks_failed_and_forwards (st : WorkerState)
    (request_id msg jobId : String) (req : Request) (res : Result)
    (hreq : st.request_store request_id = some req)
    (hres : st.response_store request_id = some res)
    (hnc : res.status ≠ Status.cancelled) :
    ((preprocessStep st request_id (ModifierOutcome.raises msg)).1.response_store request_id =
        some { res with status := Status.failed,
                        message := "Preprocessing failed: " ++ msg } ∧
      (preprocessStep st request_id (ModifierOutcome.raises msg)).1.postprocess_queue =
        st.postprocess_queue ++ [request_id]) ∧
    ((generationStep st request_id (GenEnv.submitRaises msg)).1.response_store request_id =
        some { res with status := Status.failed,
                        message := "Generation failed: " ++ msg } ∧
      (generationStep st request_id (GenEnv.submitRaises msg)).1.postprocess_queue =
        st.postprocess_queue ++ [request_id]) ∧
    ((generationStep st request_id (GenEnv.monitorRaises jobId msg)).1.response_store request_id =
        some { res with status := Status.failed,
                        message := "Generation failed: " ++ msg } ∧
      (generationStep st request_id (GenEnv.monitorRaises jobId msg)).1.postprocess_queue =
        st.postprocess_queue ++ [request_id]) := by
  refine ⟨⟨?_, ?_⟩, ⟨?_, ?_⟩, ⟨?_, ?_⟩⟩ <;>
    simp [preprocessStep, generationStep, preprocessFailHandler,
      generationFailHandler, hreq, hres, hnc, Store.set]

/-- Witness for the C5 theorem at a concrete failing request. -/
theorem stage_failure_marks_failed_and_forwards_witness :
    (preprocessStep
        { request_store := fun k => if k = "rf" then some { input := {} } else none,
          response_store := fun k =>
            if k = "rf" then some { id := "rf", status := Status.queued } else none,
          preprocess_queue := [], generation_queue := [], postprocess_queue := [] }
        "rf" (ModifierOutcome.raises "Unknown modifier: Nope")).1.response_store "rf" =
      some { id := "rf", status := Status.failed,
             message := "Preprocessing failed: Unknown modifier: Nope" } :=
  (stage_failure_marks_failed_and_forwards _ "rf" "Unknown modifier: Nope" "j"
      { input := {} } { id := "rf", status := Status.queued }
      (by simp) (by simp) (by simp)).1.1

/-- C1 as amended: terminal-state preservation holds only in these forms.
A result that is failed when the postprocess worker processes it keeps
status failed whatever the collaborator outcomes, and a result that is
cancelled when the preprocess or the generation worker claims it is left
untouched in the store (still cancelled) with no job submission.  The
original claim fails for the remaining combinations, which the
counterexample exhibits: the statuses cancelled and timeout are overwritten
to completed by the postprocess final update (it only guards failed), and
failed or timeout results claimed by preprocess or generation are processed
again because those stages only check for cancelled. -/
theorem terminal_status_amended (st : WorkerState) (request_id : String)
    (req : Request) (res : Result) (penv : PostEnv)
    (menv : ModifierOutcome) (genv : GenEnv)
    (hreq : st.request_store request_id = some req)
    (hres : st.response_store request_id = some res) :
    (res.status = Status.failed →
        ((postprocessStep st request_id penv).1.response_store request_id).map
          Result.status = some Status.failed) ∧
    (res.status = Status.cancelled →
        (preprocessStep st request_id menv).1.response_store request_id = some res ∧
        (generationStep st request_id genv).1.response_store request_id = some res ∧
        (generationStep st request_id genv).2.submitted = false) := by
  constructor
  · intro hf
    cases hcr : res.comfyui_response with
    | none =>
        simp [postprocessStep, postTryBody, postFinalStatus, hreq, hres, hcr, hf, Store.set]
    | some payload =>
        cases hma : penv.moveAssets with
        | error m =>
            simp [postprocessStep, postTryBody, postFinalStatus, hreq, hres, hcr, hma,
              Store.set]
        | ok moved =>
            cases hs3 : penv.s3Configured with
            | false =>
                simp [postprocessStep, postTryBody, postFinalStatus, hreq, hres, hcr,
                  hma, hs3, hf, Store.set]
            | true =>
                cases hup : penv.uploadAssets with
                | error m =>
                    simp [postprocessStep, postTryBody, postFinalStatus, hreq, hres,
                      hcr, hma, hs3, hup, Store.set]
                | ok uploaded =>
                    simp [postprocessStep, postTryBody, postFinalStatus, hreq, hres,
                      hcr, hma, hs3, hup, hf, Store.set]
  · intro hcan
    refine ⟨?_, ?_, ?_⟩ <;> simp [preprocessStep, generationStep, hreq, hres, hcan]

/-- Witness for the amended C1 theorem: a failed result stays failed
through postprocess. -/
theorem terminal_status_amended_witness :
    ((postprocessStep
        { request_store := fun k => if k = "rw" then some { input := {} } else none,
          response_store := fun k =>
            if k = "rw" then
              some { id := "rw", status := Status.failed, message := "Generation failed: x" }
            else none,
          preprocess_queue := [], generation_queue := [], postprocess_queue := [] }
        "rw"
        { moveAssets := Except.ok [], s3Configured := false,
          uploadAssets := Except.ok [], webhookConfigured := false }).1.response_store
          "rw").map Result.status = some Status.failed :=
  (terminal_status_amended _ "rw" { input := {} }
      { id := "rw", status := Status.failed, message := "Generation failed: x" }
      { moveAssets := Except.ok [], s3Configured := false,
        uploadAssets := Except.ok [], webhookConfigured := false }
      (ModifierOutcome.ok []) (GenEnv.succeeds "j" "p")
      (by simp) (by simp)).1 rfl

/-- C1 counterexample: the claim as stated is false on the code.  First, a
result that is cancelled when the postprocess worker processes it (request
present, no backend payload, no S3, no webhook) is overwritten to
completed, because the final status update only guards failed.  Second, a
result that is failed when the generation worker claims it is overwritten
to generated on a successful run, because the generation stage only checks
for cancelled before processing. -/
theorem terminal_status_claim_refuted :
    ((postprocessStep
        { request_store := fun k => if k = "r1" then some { input := {} } else none,
          response_store := fun k =>
            if k = "r1" then
              some { id := "r1", status := Status.cancelled,
                     message := "Request cancelled due to client disconnection" }
            else none,
          preprocess_queue := [], generation_queue := [], postprocess_queue := [] }
        "r1"
        { moveAssets := Except.ok [], s3Configured := false,
          uploadAssets := Except.ok [], webhookConfigured := false }).1.response_store
          "r1").map Result.status = some Status.completed ∧
    ((generationStep
        { request_store := fun k => if k = "r2" then some { input := {} } else none,
          response_store := fun k =>
            if k = "r2" then
              some { id := "r2", status := Status.failed, message := "failed earlier" }
            else none,
          preprocess_queue := [], generation_queue := [], postprocess_queue := [] }
        "r2" (GenEnv.succeeds "job1" "payload")).1.response_store "r2").map
        Result.status = some Status.generated := by
  constructor
  · simp [postprocessStep, postTryBody, postFinalStatus, postFinally, Store.set]
  · simp [generationStep, Store.set]

/-- C2: evaluation of the postprocess per-item step at an id whose Request
is absent from the request store.  The except handler does run (the stored
result is marked failed), but the finally clause dereferences the None
request before the webhook lookup and before task_done, so an attribute
error escapes the loop iteration, task_done never runs, and the worker
loop is killed - contradicting the claim that every exception is caught
and the task-done finalization always executes. -/
theorem postprocess_finalization_crash :
    (postprocessStep
        { request_store := fun _ => none,
          response_store := fun k =>
            if k = "r1" then
              some { id := "r1", status := Status.generated, message := "",
                     comfyui_response := some "h" }
            else none,
          preprocess_queue := [], generation_queue := [], postprocess_queue := [] }
        "r1"
        { moveAssets := Except.ok [], s3Configured := false,
          uploadAssets := Except.ok [], webhookConfigured := true }).2 =
      { taskDone := 0,
        escaped := some "AttributeError: NoneType object has no attribute input",
        webhookAttempted := false } ∧
    ((postprocessStep
        { request_store := fun _ => none,
          response_store := fun k =>
            if k = "r1" then
              some { id := "r1", status := Status.generated, message := "",
                     comfyui_response := some "h" }
            else none,
          preprocess_queue := [], generation_queue := [], postprocess_queue := [] }
        "r1"
        { moveAssets := Except.ok [], s3Configured := false,
          uploadAssets := Except.ok [], webhookConfigured := true }).1.response_store
          "r1").map Result.status = some Status.failed := by
  constructor
  · simp [postprocessStep, postFinally, Store.set]
  · simp [postprocessStep, postFinally, Store.set]
